import Mathlib

/-!
Shallow embedding of the ListenBrainz front-end excerpt:
the artist-similarity Explorer (Data.tsx), the artist info Panel,
the User Search widget and the route table (UserSearch.tsx),
together with theorems settling the spec claims about them.
-/

namespace ListenBrainz

/-! ## Data model (Data.tsx / global types) -/

/-- `ArtistType`: a canonical artist identity. -/
structure ArtistType where
  artist_mbid : String
  name : String
  type : Option String
  deriving Repr, DecidableEq

/-- One element of the similarity API response: a discriminated union tagged
by its `type` field, either a `"dataset"` entry carrying artist rows or a
`"markup"` entry carrying opaque content. -/
inductive ApiEntry where
  | dataset (data : List ArtistType)
  | markup (content : String)
  deriving Repr, DecidableEq

/-- The type guard `isDatasetResponse` of `processData`: true exactly on
entries whose `type` field is `"dataset"`. -/
def ApiEntry.isDatasetResponse : ApiEntry → Bool
  | .dataset _ => true
  | .markup _ => false

/-- The `data` array of an entry (markup entries carry none). -/
def ApiEntry.data : ApiEntry → List ArtistType
  | .dataset d => d
  | .markup _ => []

/-- `ApiResponseType`: the similarity API response, a sequence of tagged entries. -/
abbrev ApiResponseType := List ApiEntry

/-! ## Colors (tinycolor, as used by Data.tsx) -/

/-- A tinycolor HSV color: hue in degrees, saturation and value in percent. -/
structure Color where
  h : Nat
  s : Nat
  v : Nat
  deriving Repr, DecidableEq, Inhabited

/-- tinycolor `tetrad()`: four hues evenly spaced (90 degrees apart) around the
color wheel, starting from the receiver; saturation and value unchanged. -/
def tetrad (c : Color) : List Color :=
  [ c,
    { c with h := (c.h + 90) % 360 },
    { c with h := (c.h + 180) % 360 },
    { c with h := (c.h + 270) % 360 } ]

/-- `colorGenerator` of Data.tsx: from a random hue `h0`, the initial color is
`hsv(h0, 100%, 90%)` and the pair is `[initialColor, initialColor.tetrad()[1]]`. -/
def colorGenerator (h0 : Nat) : Color × Color :=
  let initialColor : Color := ⟨h0 % 360, 100, 90⟩
  (initialColor, (tetrad initialColor)[1]!)

/-! ## Toast notifications (react-toastify boundary) -/

/-- A toast notification: title and message of the `ToastMsg` body. -/
structure Toast where
  title : String
  message : String
  deriving Repr, DecidableEq

/-- Modelled from the spec: the toast layer (react-toastify, an external
dependency) keyed by `toastId` is "a map from notification id to current
visible notification, latest write wins"; raising a toast under an id
replaces any pending toast with the same id rather than stacking. -/
def raiseToast (toasts : List (String × Toast)) (toastId : String) (t : Toast) :
    List (String × Toast) :=
  (toastId, t) :: toasts.filter (fun p => p.1 ≠ toastId)

/-! ## Explorer state and operations (Data.tsx) -/

/-- The state hooks of the `Data` component, plus the pending toasts of the
shared notification channel. -/
structure ExplorerState where
  similarArtistsList : List ArtistType
  completeSimilarArtistsList : List ArtistType
  mainArtist : Option ArtistType
  similarArtistsLimit : Nat
  colors : Color × Color
  toasts : List (String × Toast)
  deriving Repr, DecidableEq

/-- The similarity endpoint prefix (`BASE_URL` of Data.tsx). -/
def BASE_URL : String :=
  "https://labs.api.listenbrainz.org/similar-artists/json?algorithm=session_based_days_7500_session_300_contribution_5_threshold_10_limit_100_filter_True_skip_30&artist_mbid="

/-- `processData` of Data.tsx: filter the response to dataset entries; if any
exist, set the main artist to `artistsData[0]?.data[0]` and the complete
similar-artists list to `artistsData[1]?.data ?? []`; in every case rotate the
color pair to `[prevColors[1], prevColors[1].tetrad()[1]]`. -/
def processData (dataResponse : ApiResponseType) (st : ExplorerState) : ExplorerState :=
  let artistsData := dataResponse.filter ApiEntry.isDatasetResponse
  let st1 :=
    if artistsData.length ≠ 0 then
      { st with
        mainArtist := (((artistsData.get? 0).map ApiEntry.data).getD []).head?
        completeSimilarArtistsList := ((artistsData.get? 1).map ApiEntry.data).getD [] }
    else st
  { st1 with colors := (st1.colors.2, (tetrad st1.colors.2)[1]!) }

/-- A thrown JS error value: either an object carrying a `message` field, or a
raw non-object value. -/
inductive FetchError where
  | objErr (message : String)
  | rawErr (value : String)
  deriving Repr, DecidableEq

/-- The ternary `typeof error === "object" ? error.message : error` of the
catch blocks. -/
def errorMessage : FetchError → String
  | .objErr m => m
  | .rawErr v => v

/-- `fetchData` of Data.tsx, applied to the outcome of the network round-trip:
on success the parsed response is handed to `processData`; on any fetch or
parse failure the displayed similar-artists list is reset to `[]` and a toast
titled "Search Error" is raised under toast id "error". -/
def fetchData (result : Except FetchError ApiResponseType) (st : ExplorerState) :
    ExplorerState :=
  match result with
  | .ok data => processData data st
  | .error e =>
      { st with
        similarArtistsList := []
        toasts := raiseToast st.toasts "error" ⟨"Search Error", errorMessage e⟩ }

/-- The second `useEffect` of Data.tsx: recompute the displayed slice as
`completeSimilarArtistsList.slice(0, similarArtistsLimit)`. -/
def recomputeSlice (st : ExplorerState) : ExplorerState :=
  { st with
    similarArtistsList := st.completeSimilarArtistsList.take st.similarArtistsLimit }

/-- A change of the similarity-limit value: the limit state is updated and the
effect keyed on `[completeSimilarArtistsList, similarArtistsLimit]` re-slices.
The pair's second component lists the network requests issued by the step:
none, since only the local effect runs. -/
def limitChangeStep (newLimit : Nat) (st : ExplorerState) :
    ExplorerState × List String :=
  (recomputeSlice { st with similarArtistsLimit := newLimit }, [])

/-- A change of the selected artist mbid: the effect keyed on `[artistMBID,
fetchData]` issues one GET to `BASE_URL + artist_mbid` and applies `fetchData`
to its outcome; the returned list records the request issued. -/
def fetchStep (artist_mbid : String) (result : Except FetchError ApiResponseType)
    (st : ExplorerState) : ExplorerState × List String :=
  (fetchData result st, [BASE_URL ++ artist_mbid])

/-- `processData` folded over a sequence of successfully parsed responses. -/
def processMany (rs : List ApiResponseType) (st : ExplorerState) : ExplorerState :=
  rs.foldl (fun s r => processData r s) st

/-- The color-pair recurrence of `processData`:
`newColors = [prevColors[1], prevColors[1].tetrad()[1]]`. -/
def colorStep (p : Color × Color) : Color × Color :=
  (p.2, (tetrad p.2)[1]!)

/-! ## Artist Info Panel (Panel in Data.tsx) -/

/-- `RecordingType`: a MusicBrainz recording, standing for either the top
track or the top album of an artist. -/
structure RecordingType where
  release_mbid : String
  release_name : String
  recording_mbid : Option String
  recording_name : Option String
  caa_id : Nat
  caa_release_mbid : String
  deriving Repr, DecidableEq

/-- `ArtistInfoType`: the panel's view-model state. -/
structure ArtistInfoType where
  name : Option String
  type : Option String
  born : String
  area : String
  wiki : String
  mbLink : String
  topAlbum : Option RecordingType
  topTrack : Option RecordingType
  deriving Repr, DecidableEq

/-- `track_metadata` of a `Listen`. -/
structure TrackMetadata where
  artist_name : String
  track_name : String
  release_name : String
  release_mbid : String
  recording_mbid : Option String
  deriving Repr, DecidableEq

/-- `Listen`: a playback-queue entry. -/
structure Listen where
  listened_at : Nat
  track_metadata : TrackMetadata
  deriving Repr, DecidableEq

/-- JS truthiness of an optional string field: `undefined` and `""` are falsy. -/
def truthyStr : Option String → Bool
  | none => false
  | some str => str ≠ ""

/-- `handleTrackChange` of the Panel: when
`artistInfo?.topTrack?.recording_name` is truthy, report upward (via
`onTrackChange`) the one-element `Listen` list built from the top track and
the input artist's name; otherwise report nothing (`none`). -/
def handleTrackChange (artist : ArtistType) (artistInfo : Option ArtistInfoType) :
    Option (List Listen) :=
  match artistInfo with
  | none => none
  | some info =>
    match info.topTrack with
    | none => none
    | some tt =>
      if truthyStr tt.recording_name then
        some [{ listened_at := 0
                track_metadata :=
                  { artist_name := artist.name
                    track_name := tt.recording_name.getD ""
                    release_name := tt.release_name
                    release_mbid := tt.release_mbid
                    recording_mbid := tt.recording_mbid } }]
      else none

/-- Modelled from the spec: `infoLookup` (file artist-panel/infoLookup, part
of this repository but not under src/) returns an `ArtistInfoType`-shaped
payload "without name/type, merged in locally"; the MusicBrainz web profile
link is "derived as https://musicbrainz.org/artist/<artist_mbid>". -/
def infoLookup (artist_mbid : String) (born area wiki : String)
    (topTrack : Option RecordingType) : ArtistInfoType :=
  { name := none
    type := none
    born := born
    area := area
    wiki := wiki
    mbLink := "https://musicbrainz.org/artist/" ++ artist_mbid
    topAlbum := none
    topTrack := topTrack }

/-- The success path of `getArtistInfo` in the Panel: take the lookup result
and add the caller-supplied artist's `name` and `type` properties; every other
field, `mbLink` included, is kept from the lookup payload. -/
def getArtistInfo (artist : ArtistType) (artistApiInfo : ArtistInfoType) :
    ArtistInfoType :=
  { artistApiInfo with name := some artist.name, type := artist.type }

/-- The `href` of the rendered "More" link of the Panel: `artistInfo.mbLink`. -/
def panelMoreHref (artistInfo : ArtistInfoType) : String :=
  artistInfo.mbLink

/-! ## User Search widget throttling (UserSearch.tsx) -/

/-- The private state of one lodash `_throttle(f, 300)` instance: the time of
the last leading-edge invocation and the value pending for a trailing-edge
invocation, if any. -/
structure ThrottleState where
  lastInvokeTime : Option Nat
  pendingValue : Option String
  deriving Repr, DecidableEq

/-- A freshly constructed throttle instance: nothing invoked, nothing pending. -/
def throttleInit : ThrottleState := ⟨none, none⟩

/-- One call of a lodash-throttled function (wait 300 ms, default leading and
trailing edges): if no invocation happened yet, or 300 ms have elapsed since
the last one, the wrapped function fires immediately on the leading edge with
the current value; otherwise the value is stored for the trailing edge.
Returns the new instance state and the dispatch fired now, if any. -/
def throttleCall (st : ThrottleState) (t : Nat) (v : String) :
    ThrottleState × Option (Nat × String) :=
  match st.lastInvokeTime with
  | none => (⟨some t, none⟩, some (t, v))
  | some last =>
      if 300 ≤ t - last then (⟨some t, none⟩, some (t, v))
      else ({ st with pendingValue := some v }, none)

/-- The UserSearch component as written: `throttledSearchUsers` is built by
`_throttle` in the component body, so every re-render (hence every change of
`newUser`) constructs a fresh throttle instance, and the effect keyed on
`[newUser]` calls that fresh instance once — unless the new text is empty, in
which case the effect returns before calling it. The result is the list of
search requests dispatched, as (time, query) pairs. -/
def userSearchDispatches (events : List (Nat × String)) : List (Nat × String) :=
  events.filterMap (fun e =>
    if e.2 ≠ "" then (throttleCall throttleInit e.1 e.2).2 else none)

/-- What the spec asks of the widget: at most one dispatch in any 300 ms
window. -/
def atMostOnePer300ms (dispatches : List (Nat × String)) : Prop :=
  List.Pairwise (fun a b => 300 ≤ b.1 - a.1 ∨ 300 ≤ a.1 - b.1) dispatches

instance (dispatches : List (Nat × String)) : Decidable (atMostOnePer300ms dispatches) := by
  unfold atMostOnePer300ms
  exact List.instDecidablePairwise dispatches

/-! ## Route Table (getIndexRoutes in UserSearch.tsx source file) -/

/-- The page components lazily resolved by the route table, one constructor
per distinct imported component. -/
inductive PageComponent where
  | OutletComp
  | HomePage
  | Login
  | GDPR
  | ImportData
  | MessyBrainz
  | LastfmProxy
  | ListensOffline
  | MusicBrainzOffline
  | SearchResults
  | PlaylistPageWrapper
  | PlayingNowPageWrapper
  | UserDashboardLayout
  | StatisticsPage
  | UserEntityChart
  | UserFeedLayout
  | UserFeed
  | RecentListensWrapper
  deriving Repr, DecidableEq

/-- The loader functions referenced by the route table. -/
inductive LoaderFn where
  | RouteLoader
  | StatisticsChartLoader
  | RecentListensLoader
  deriving Repr, DecidableEq

/-- One route definition: a path pattern (none for `index: true` routes), the
component it resolves to, its optional loader, and its child routes. -/
structure Route where
  path : Option String
  index : Bool
  component : PageComponent
  loader : Option LoaderFn
  children : List Route

/-- A leaf route with a path. -/
def routeLeaf (p : String) (c : PageComponent) (l : Option LoaderFn) : Route :=
  ⟨some p, false, c, l, []⟩

/-- An `index: true` route. -/
def routeIndex (c : PageComponent) (l : Option LoaderFn) : Route :=
  ⟨none, true, c, l, []⟩

/-- `getIndexRoutes`: the route configuration returned by the routes module. -/
def getIndexRoutes : List Route :=
  [ { path := some "/"
      index := false
      component := .OutletComp
      loader := none
      children :=
        [ routeIndex .HomePage (some .RouteLoader),
          routeLeaf "login/" .Login none,
          routeLeaf "agree-to-terms/" .GDPR none,
          routeLeaf "import-data/" .ImportData none,
          routeLeaf "messybrainz/" .MessyBrainz none,
          routeLeaf "lastfm-proxy/" .LastfmProxy none,
          routeLeaf "listens-offline/" .ListensOffline none,
          routeLeaf "musicbrainz-offline/" .MusicBrainzOffline none,
          routeLeaf "search/" .SearchResults (some .RouteLoader),
          routeLeaf "playlist/:playlistID/" .PlaylistPageWrapper (some .RouteLoader),
          routeLeaf "listening-now/" .PlayingNowPageWrapper (some .RouteLoader),
          { path := some "/statistics/"
            index := false
            component := .UserDashboardLayout
            loader := none
            children :=
              [ routeIndex .StatisticsPage none,
                routeLeaf "top-artists/" .UserEntityChart (some .StatisticsChartLoader),
                routeLeaf "top-albums/" .UserEntityChart (some .StatisticsChartLoader),
                routeLeaf "top-tracks/" .UserEntityChart (some .StatisticsChartLoader) ] },
          { path := some "/"
            index := false
            component := .UserFeedLayout
            loader := none
            children :=
              [ routeLeaf "/feed/" .UserFeed none,
                routeLeaf "/recent/" .RecentListensWrapper (some .RecentListensLoader) ] } ] } ]

/-- The label of a route for path-set comparison: its path pattern, or
`"<index>"` for an `index: true` route. -/
def pathLabel (r : Route) : String :=
  match r.path with
  | some p => p
  | none => "<index>"

/-- The children of the single top-level route. -/
def rootChildren : List Route :=
  ((getIndexRoutes.get? 0).map Route.children).getD []

/-- The children of the `/statistics/` route. -/
def statisticsChildren : List Route :=
  ((rootChildren.get? 11).map Route.children).getD []

/-- The children of the nested feed-layout route at `/`. -/
def feedChildren : List Route :=
  ((rootChildren.get? 12).map Route.children).getD []

/-! ## Concrete sample data for witnesses -/

/-- A sample artist row. -/
def artistA : ArtistType := ⟨"mbid-a", "Artist A", none⟩

/-- A sample artist row. -/
def artistB : ArtistType := ⟨"mbid-b", "Artist B", none⟩

/-- A sample artist row. -/
def artistC : ArtistType := ⟨"mbid-c", "Artist C", some "Group"⟩

/-- A sample Explorer state with non-trivial prior values. -/
def sampleState : ExplorerState :=
  { similarArtistsList := [artistB]
    completeSimilarArtistsList := [artistB, artistC]
    mainArtist := some artistA
    similarArtistsLimit := 18
    colors := colorGenerator 42
    toasts := [] }

/-- A sample similarity response: one markup entry and two dataset entries. -/
def sampleResponse : ApiResponseType :=
  [.markup "info", .dataset [artistA], .dataset [artistB, artistC]]

/-- A sample similarity response with no dataset entry. -/
def markupOnlyResponse : ApiResponseType :=
  [.markup "info", .markup "more info"]

/-- A sample top-track recording. -/
def sampleTrack : RecordingType :=
  ⟨"rel-mbid", "Release R", some "rec-mbid", some "Track T", 7, "caa-rel"⟩

/-- A sample panel view-model whose top track is `sampleTrack`. -/
def sampleInfo : ArtistInfoType :=
  ⟨some "Artist A", none, "1970", "Area", "wiki text",
    "https://musicbrainz.org/artist/mbid-a", none, some sampleTrack⟩

/-! ## Theorems -/

/-- C1: for every similarity response with at least one entry tagged
"dataset", `processData` sets the main artist to the first row of the first
dataset entry, sets the complete similar-artists list to the data array of
the second dataset entry (empty if no second dataset entry exists), and
entries not tagged "dataset" have no effect: processing the response equals
processing its dataset entries alone. -/
theorem C1_processData_datasets (dataResponse : ApiResponseType) (st : ExplorerState)
    (h : dataResponse.filter ApiEntry.isDatasetResponse ≠ []) :
    (processData dataResponse st).mainArtist
        = (((((dataResponse.filter ApiEntry.isDatasetResponse).get? 0)).map
            ApiEntry.data).getD []).head?
    ∧ (processData dataResponse st).completeSimilarArtistsList
        = ((((dataResponse.filter ApiEntry.isDatasetResponse).get? 1)).map
            ApiEntry.data).getD []
    ∧ processData dataResponse st
        = processData (dataResponse.filter ApiEntry.isDatasetResponse) st := by
  have hlen : (dataResponse.filter ApiEntry.isDatasetResponse).length ≠ 0 := by
    simpa [List.length_eq_zero] using h
  refine ⟨?_, ?_, ?_⟩ <;>
    simp [processData, hlen, List.filter_filter]

/-- C1 witness: the theorem applied to `sampleResponse` and `sampleState`. -/
theorem C1_witness :
    sampleResponse.filter ApiEntry.isDatasetResponse ≠ []
    ∧ ((processData sampleResponse sampleState).mainArtist
          = (((((sampleResponse.filter ApiEntry.isDatasetResponse).get? 0)).map
              ApiEntry.data).getD []).head?
        ∧ (processData sampleResponse sampleState).completeSimilarArtistsList
          = ((((sampleResponse.filter ApiEntry.isDatasetResponse).get? 1)).map
              ApiEntry.data).getD []
        ∧ processData sampleResponse sampleState
          = processData (sampleResponse.filter ApiEntry.isDatasetResponse) sampleState) :=
  ⟨by decide, C1_processData_datasets sampleResponse sampleState (by decide)⟩

/-- C9: for every similarity response with zero entries tagged "dataset",
`processData` leaves the main artist, the complete similar-artists list, the
displayed similar-artists list and the pending notifications unchanged. -/
theorem C9_processData_no_datasets (dataResponse : ApiResponseType) (st : ExplorerState)
    (h : dataResponse.filter ApiEntry.isDatasetResponse = []) :
    (processData dataResponse st).mainArtist = st.mainArtist
    ∧ (processData dataResponse st).completeSimilarArtistsList
        = st.completeSimilarArtistsList
    ∧ (processData dataResponse st).similarArtistsList = st.similarArtistsList
    ∧ (processData dataResponse st).toasts = st.toasts := by
  refine ⟨?_, ?_, ?_, ?_⟩ <;> simp [processData, h]

/-- C9 witness: the theorem applied to `markupOnlyResponse` and `sampleState`. -/
theorem C9_witness :
    markupOnlyResponse.filter ApiEntry.isDatasetResponse = []
    ∧ ((processData markupOnlyResponse sampleState).mainArtist = sampleState.mainArtist
        ∧ (processData markupOnlyResponse sampleState).completeSimilarArtistsList
            = sampleState.completeSimilarArtistsList
        ∧ (processData markupOnlyResponse sampleState).similarArtistsList
            = sampleState.similarArtistsList
        ∧ (processData markupOnlyResponse sampleState).toasts = sampleState.toasts) :=
  ⟨by decide, C9_processData_no_datasets markupOnlyResponse sampleState (by decide)⟩

/-- C3: every processed similarity response updates the color pair by the
recurrence `newColors = [prevColors[1], prevColors[1].tetrad()[1]]`; over any
sequence of N processed responses the colors are the N-fold iterate of that
deterministic rotation applied to the initial pair (no re-randomization), and
the initial pair produced by `colorGenerator` is `[initialColor,
initialColor.tetrad()[1]]` for the seeded hue. -/
theorem C3_color_recurrence :
    (∀ (dataResponse : ApiResponseType) (st : ExplorerState),
        (processData dataResponse st).colors = colorStep st.colors)
    ∧ (∀ (rs : List ApiResponseType) (st : ExplorerState),
        (processMany rs st).colors = colorStep^[rs.length] st.colors)
    ∧ (∀ p : Color × Color, colorStep p = (p.2, (tetrad p.2)[1]!))
    ∧ (∀ h0 : Nat,
        colorGenerator h0
          = (⟨h0 % 360, 100, 90⟩, (tetrad ⟨h0 % 360, 100, 90⟩)[1]!)) := by
  have hstep : ∀ (dataResponse : ApiResponseType) (st : ExplorerState),
      (processData dataResponse st).colors = colorStep st.colors := by
    intro dataResponse st
    unfold processData colorStep
    by_cases hc : (dataResponse.filter ApiEntry.isDatasetResponse).length ≠ 0 <;>
      simp [hc]
  refine ⟨hstep, ?_, fun _ => rfl, fun _ => rfl⟩
  intro rs
  induction rs with
  | nil => intro st; rfl
  | cons r rs ih =>
      intro st
      have : processMany (r :: rs) st = processMany rs (processData r st) := rfl
      rw [this, ih, hstep, List.length_cons, Function.iterate_succ_apply]

/-- C4: every failed similarity fetch resets the displayed similar-artists
list to empty and raises one toast titled "Search Error" under toast id
"error" carrying the error's message (the object's `message` field, or the
raw value for a non-object); after a failure exactly one toast is pending
under id "error", and a second failure coalesces under the same id, still
leaving exactly one. -/
theorem C4_fetch_failure :
    (∀ (e : FetchError) (st : ExplorerState),
        (fetchData (.error e) st).similarArtistsList = []
        ∧ List.lookup "error" (fetchData (.error e) st).toasts
            = some ⟨"Search Error", errorMessage e⟩
        ∧ ((fetchData (.error e) st).toasts.filter
            (fun p => p.1 == "error")).length = 1
        ∧ ∀ e2 : FetchError,
            ((fetchData (.error e2) (fetchData (.error e) st)).toasts.filter
              (fun p => p.1 == "error")).length = 1)
    ∧ (∀ m, errorMessage (.objErr m) = m)
    ∧ (∀ v, errorMessage (.rawErr v) = v) := by
  have hcount : ∀ (toasts : List (String × Toast)) (t : Toast),
      ((raiseToast toasts "error" t).filter (fun p => p.1 == "error")).length = 1 := by
    intro toasts t
    simp only [raiseToast, List.filter_cons, List.filter_filter]
    simp
  refine ⟨?_, fun _ => rfl, fun _ => rfl⟩
  intro e st
  refine ⟨rfl, ?_, hcount st.toasts _, fun e2 => hcount _ _⟩
  simp [fetchData, raiseToast, List.lookup]

/-- C5: a change of only the similarity-limit value recomputes the displayed
slice as the first `limit` entries of the complete list, leaves the complete
list and main artist unchanged, and issues no network request. -/
theorem C5_limit_reslice (newLimit : Nat) (st : ExplorerState) :
    (limitChangeStep newLimit st).1.similarArtistsList
        = st.completeSimilarArtistsList.take newLimit
    ∧ (limitChangeStep newLimit st).1.completeSimilarArtistsList
        = st.completeSimilarArtistsList
    ∧ (limitChangeStep newLimit st).1.mainArtist = st.mainArtist
    ∧ (limitChangeStep newLimit st).2 = [] :=
  ⟨rfl, rfl, rfl, rfl⟩

/-- C10: a failed similarity fetch leaves the complete similar-artists list
and the main artist unchanged and clears only the displayed slice; a
subsequent limit change re-populates the displayed slice from the retained
pre-failure complete list. -/
theorem C10_failure_frame (e : FetchError) (st : ExplorerState) :
    (fetchData (.error e) st).completeSimilarArtistsList
        = st.completeSimilarArtistsList
    ∧ (fetchData (.error e) st).mainArtist = st.mainArtist
    ∧ (fetchData (.error e) st).similarArtistsList = []
    ∧ ∀ newLimit : Nat,
        (limitChangeStep newLimit (fetchData (.error e) st)).1.similarArtistsList
          = st.completeSimilarArtistsList.take newLimit :=
  ⟨rfl, rfl, rfl, fun _ => rfl⟩

/-- C7: a click on the Top Track or Top Album card (both wired to
`handleTrackChange`) with a top track whose recording name is present reports
upward exactly one synthetic `Listen` with `listened_at = 0`, the input
artist's name, and track/release fields copied from the top-track record;
with no (truthy) recording name, or no top track, nothing is reported. -/
theorem C7_handleTrackChange (artist : ArtistType) (info : ArtistInfoType)
    (tt : RecordingType) (h1 : info.topTrack = some tt)
    (h2 : truthyStr tt.recording_name = true) :
    handleTrackChange artist (some info)
      = some [{ listened_at := 0
                track_metadata :=
                  { artist_name := artist.name
                    track_name := tt.recording_name.getD ""
                    release_name := tt.release_name
                    release_mbid := tt.release_mbid
                    recording_mbid := tt.recording_mbid } }]
    ∧ (∀ (info2 : ArtistInfoType) (tt2 : RecordingType), info2.topTrack = some tt2 →
        truthyStr tt2.recording_name = false →
        handleTrackChange artist (some info2) = none)
    ∧ (∀ info3 : ArtistInfoType, info3.topTrack = none →
        handleTrackChange artist (some info3) = none) := by
  refine ⟨?_, ?_, ?_⟩
  · simp [handleTrackChange, h1, h2]
  · intro info2 tt2 h3 h4
    simp [handleTrackChange, h3, h4]
  · intro info3 h5
    simp [handleTrackChange, h5]

/-- C7 witness: the theorem applied to `artistA` and `sampleInfo` (whose top
track is `sampleTrack`). -/
theorem C7_witness :
    sampleInfo.topTrack = some sampleTrack
    ∧ truthyStr sampleTrack.recording_name = true
    ∧ (handleTrackChange artistA (some sampleInfo)
        = some [{ listened_at := 0
                  track_metadata :=
                    { artist_name := artistA.name
                      track_name := sampleTrack.recording_name.getD ""
                      release_name := sampleTrack.release_name
                      release_mbid := sampleTrack.release_mbid
                      recording_mbid := sampleTrack.recording_mbid } }]
        ∧ (∀ (info2 : ArtistInfoType) (tt2 : RecordingType), info2.topTrack = some tt2 →
            truthyStr tt2.recording_name = false →
            handleTrackChange artistA (some info2) = none)
        ∧ (∀ info3 : ArtistInfoType, info3.topTrack = none →
            handleTrackChange artistA (some info3) = none)) :=
  ⟨by decide, by decide,
    C7_handleTrackChange artistA sampleInfo sampleTrack (by decide) (by decide)⟩

/-- C8: after a successful info lookup for an artist, the panel's `mbLink`
(rendered as the href of the "More" link) equals the derived URL
`https://musicbrainz.org/artist/<artist_mbid>`: the lookup payload carries the
derived URL and the panel's merge of name and type preserves it. -/
theorem C8_mbLink (artist : ArtistType) (born area wiki : String)
    (topTrack : Option RecordingType) :
    panelMoreHref
        (getArtistInfo artist (infoLookup artist.artist_mbid born area wiki topTrack))
      = "https://musicbrainz.org/artist/" ++ artist.artist_mbid
    ∧ (∀ payload : ArtistInfoType,
        (getArtistInfo artist payload).mbLink = payload.mbLink) :=
  ⟨rfl, fun _ => rfl⟩

/-- C2 counterexample: the route configuration does not contain two
independent top-level entries matching `/`: the top-level list has exactly one
entry, and exactly one top-level entry has path `/` (the feed-layout entry at
`/` is nested among that entry's children, not a top-level sibling). -/
theorem C2_counterexample :
    getIndexRoutes.length = 1
    ∧ (getIndexRoutes.filter (fun r => r.path == some "/")).length = 1
    ∧ ¬ 2 ≤ (getIndexRoutes.filter (fun r => r.path == some "/")).length := by
  refine ⟨rfl, rfl, ?_⟩
  decide

/-- C2 amended: the route table has a single top-level entry at `/`; its
children carry exactly the enumerated path set — index, login/,
agree-to-terms/, import-data/, messybrainz/, lastfm-proxy/, listens-offline/,
musicbrainz-offline/, search/, playlist/:playlistID/, listening-now/,
/statistics/ (with index and top-artists/, top-albums/, top-tracks/ children)
and a second entry also at `/` (the feed layout, with /feed/ and /recent/
children) nested as a child of the top-level entry rather than as an
independent top-level sibling; the three statistics sub-routes all resolve to
the same page component and loader pair. -/
theorem C2_amended :
    getIndexRoutes.map pathLabel = ["/"]
    ∧ rootChildren.map pathLabel
        = ["<index>", "login/", "agree-to-terms/", "import-data/", "messybrainz/",
           "lastfm-proxy/", "listens-offline/", "musicbrainz-offline/", "search/",
           "playlist/:playlistID/", "listening-now/", "/statistics/", "/"]
    ∧ (rootChildren.filter (fun r => !r.children.isEmpty)).map pathLabel
        = ["/statistics/", "/"]
    ∧ statisticsChildren.map pathLabel
        = ["<index>", "top-artists/", "top-albums/", "top-tracks/"]
    ∧ feedChildren.map pathLabel = ["/feed/", "/recent/"]
    ∧ (statisticsChildren.map fun r => r.children.isEmpty) = [true, true, true, true]
    ∧ (feedChildren.map fun r => r.children.isEmpty) = [true, true]
    ∧ ((statisticsChildren.filter fun r => r.path ≠ none).map
          fun r => (r.component, r.loader))
        = [(.UserEntityChart, some .StatisticsChartLoader),
           (.UserEntityChart, some .StatisticsChartLoader),
           (.UserEntityChart, some .StatisticsChartLoader)]
    ∧ ((rootChildren.get? 12).map fun r => r.component) = some .UserFeedLayout :=
  ⟨rfl, rfl, rfl, rfl, rfl, rfl, rfl, rfl, rfl⟩

/-- C6: evaluation of the widget at the failing input. Two non-empty input
changes 100 ms apart each dispatch a request, because the throttled function
is rebuilt on every render so each effect run hits a fresh instance's leading
edge: two requests fall inside one 300 ms window, and the first carries the
earlier (non-final) value, contradicting "at most one request per 300 ms
window, using the final value". -/
theorem C6_throttle_bug :
    userSearchDispatches [(0, "a"), (100, "ab")] = [(0, "a"), (100, "ab")]
    ∧ ¬ atMostOnePer300ms (userSearchDispatches [(0, "a"), (100, "ab")]) := by
  refine ⟨rfl, ?_⟩
  decide

end ListenBrainz
